import Mathlib

/-!
Verification of the cycle state machine of the Sepolia faucet bot
(source: src/bot.py, class SepoliaFaucetBot).

The effectful Python methods are embedded as pure Lean functions over
explicit oracles:

* balance reads (`w3.eth.get_balance` via `get_balance`) become a stream
  `bal : Nat → ℚ` giving the value returned by the k-th read inside a call;
* transfer attempts become a stream `tf : Nat → Bool` giving the result of
  the k-th `transfer_funds` invocation inside a retry loop;
* chain RPC state inside one `transfer_funds` call (nonce, gas price, fresh
  balance, broadcast success, receipt status) becomes a `ChainEnv` record;
* the unbounded `while True` retry loops are given explicit fuel; running
  out of fuel is reported as `none` ("still looping"), so every theorem
  about loop exits quantifies over sufficient fuel.

Eth amounts at the float-ETH level are modelled as `ℚ`, wei amounts as
`Nat` (with `Int` for the one subtraction that can go negative).
-/

namespace FaucetBot

/-- The closed outcome taxonomy produced from one faucet attempt
(spec §3 FaucetOutcome; branches of run_bot, bot.py lines 267-333). -/
inductive FaucetOutcome
  | Success
  | RateLimited
  | MaxRetriesExceeded
  | TransactionReplaced
  | ReplacementUnderpriced
  | AccessRestricted
  | TemporarilyForbidden
  | Timeout
  | ConnectionReset
  | UnknownFailure
deriving DecidableEq, Repr

/-- Character-list prefix match: does `m` occur at the head of `b`? -/
def strMatchAt : List Char → List Char → Bool
  | [], _ => true
  | _ :: _, [] => false
  | c :: cs, d :: ds => (c == d) && strMatchAt cs ds

/-- Does `m` occur as a contiguous run anywhere in `b`? -/
def containsSubAux (m : List Char) : List Char → Bool
  | [] => strMatchAt m []
  | c :: cs => strMatchAt m (c :: cs) || containsSubAux m cs

/-- Substring containment on strings, modelling Python `marker in body`
on the response bytes (bot.py lines 278-328). -/
def containsSub (marker body : String) : Bool :=
  containsSubAux marker.toList body.toList

/-- `self.request_delay` (bot.py line 17). -/
def request_delay : Nat := 1

/-- The classification of a failed faucet response body, transcribed from
the if/elif chain of run_bot (bot.py lines 278-333): each branch tests a
literal marker substring of the returned body, in source order, with the
final else mapping to `UnknownFailure`. -/
def classifyBody (body : String) : FaucetOutcome :=
  if containsSub "MAX_RETRIES_EXCEEDED" body then .MaxRetriesExceeded
  else if containsSub "TRANSACTION_REPLACED" body then .TransactionReplaced
  else if containsSub "REPLACEMENT_UNDERPRICED" body then .ReplacementUnderpriced
  else if containsSub "RATE_LIMIT" body then .RateLimited
  else if containsSub "Temporarily forbidden due to suspicious requests" body then .TemporarilyForbidden
  else if containsSub "ACCESS_RESTRICTED" body then .AccessRestricted
  else if containsSub "TIMEOUT" body then .Timeout
  else if containsSub "CONNECTION_RESET" body then .ConnectionReset
  else .UnknownFailure

/-- The marker/outcome pairs of the run_bot branch chain, in their source
precedence order (bot.py lines 278-328). -/
def markerTable : List (String × FaucetOutcome) :=
  [("MAX_RETRIES_EXCEEDED", .MaxRetriesExceeded),
   ("TRANSACTION_REPLACED", .TransactionReplaced),
   ("REPLACEMENT_UNDERPRICED", .ReplacementUnderpriced),
   ("RATE_LIMIT", .RateLimited),
   ("Temporarily forbidden due to suspicious requests", .TemporarilyForbidden),
   ("ACCESS_RESTRICTED", .AccessRestricted),
   ("TIMEOUT", .Timeout),
   ("CONNECTION_RESET", .ConnectionReset)]

/-- First-match-wins lookup over `markerTable`: the specification-level
reformulation of the branch chain as a precedence list. -/
def classifyByTable (body : String) : FaucetOutcome :=
  match markerTable.find? (fun p => containsSub p.1 body) with
  | some p => p.2
  | none => .UnknownFailure

/-- Wei-to-ETH conversion (`w3.from_wei(x, 'ether')`). -/
def weiToEth (w : Nat) : ℚ := (w : ℚ) / 10 ^ 18

/-- Result of one `get_balance` call: the returned amount and whether an
error was logged. -/
structure BalanceRead where
  value : ℚ
  loggedError : Bool
deriving DecidableEq, Repr

/-- get_balance (bot.py lines 41-49): a possibly-failing RPC read; on
success the wei amount is converted to ETH and returned, on any exception
the error is logged and `0` is returned.  The embedding is total: there is
no error path to the caller. -/
def get_balance (read : Except String Nat) : BalanceRead :=
  match read with
  | .ok w => ⟨weiToEth w, false⟩
  | .error _ => ⟨0, true⟩

/-- The chain RPC state observed by one `transfer_funds` call. -/
structure ChainEnv where
  nonce : Nat
  gas_price : Nat
  balance_wei : Nat
  sendOk : Bool
  receipt : Option Nat
deriving DecidableEq, Repr

/-- A built transaction (the dict literal of bot.py lines 177-183). -/
structure Tx where
  nonce : Nat
  toAddr : String
  value : Int
  gas : Nat
  gasPrice : Nat
deriving DecidableEq, Repr

/-- Observable behaviour of one `transfer_funds` call: its boolean result,
the list of transactions it built and signed, and how many it broadcast. -/
structure TransferTrace where
  result : Bool
  built : List Tx
  broadcasts : Nat
deriving DecidableEq, Repr

/-- `gas_limit = 21000` (bot.py line 162). -/
def gas_limit : Nat := 21000

/-- transfer_funds (bot.py lines 157-203): reads nonce, gas price and a
fresh balance from the chain, computes
`send_amount_wei = balance_wei - gas_limit * gas_price`; if that is ≤ 0 it
fails immediately, otherwise it builds one transaction carrying
`send_amount_wei`, signs and broadcasts it and waits for the receipt,
succeeding exactly on receipt status 1.  The `amount_eth` parameter is
accepted (as in the source) but never read. -/
def transfer_funds (env : ChainEnv) (from_private_key from_address to_address : String)
    (amount_eth : ℚ) : TransferTrace :=
  let gas_cost_wei : Int := (gas_limit : Int) * (env.gas_price : Int)
  let send_amount_wei : Int := (env.balance_wei : Int) - gas_cost_wei
  if send_amount_wei ≤ 0 then ⟨false, [], 0⟩
  else
    let tx : Tx := ⟨env.nonce, to_address, send_amount_wei, gas_limit, env.gas_price⟩
    if env.sendOk then
      match env.receipt with
      | some 1 => ⟨true, [tx], 1⟩
      | some _ => ⟨false, [tx], 1⟩
      | none => ⟨false, [tx], 1⟩
    else ⟨false, [tx], 0⟩

/-- Trace of the balance-polling loop: the detecting read (0-based index
and observed balance) if any, the number of balance reads performed, and
the number of 1-unit sleeps performed. -/
structure PollTrace where
  found : Option (Nat × ℚ)
  reads : Nat
  sleeps : Nat
deriving DecidableEq, Repr

/-- The polling loop shared by check_balance_and_transfer (bot.py lines
132-139, `for i in range(check_attempts)`) and wait_for_funds_and_transfer
(bot.py lines 210-231, discretised to one read per time unit): starting at
read index `i` with `rem` reads remaining, read the balance; if it exceeds
`initial` stop (no sleep), else sleep one unit and continue. -/
def pollLoop (bal : Nat → ℚ) (initial : ℚ) : Nat → Nat → PollTrace
  | _, 0 => ⟨none, 0, 0⟩
  | i, rem + 1 =>
    if initial < bal i then ⟨some (i, bal i), 1, 0⟩
    else
      let t := pollLoop bal initial (i + 1) rem
      ⟨t.found, t.reads + 1, t.sleeps + 1⟩

/-- The sweep retry loop appearing verbatim in both
check_balance_and_transfer (bot.py lines 142-154) and
wait_for_funds_and_transfer (bot.py lines 216-228): attempt the transfer;
on success return true; on failure sleep, re-read the balance and abort
with false as soon as that read is ≤ `initial`, else retry.  `k` is the
attempt index, the second component of the result is the total number of
transfer attempts performed; `none` means fuel ran out while the loop was
still going. -/
def transferRetryLoop (tf : Nat → Bool) (pb : Nat → ℚ) (initial : ℚ) :
    Nat → Nat → Option Bool × Nat
  | k, 0 => (none, k)
  | k, fuel + 1 =>
    if tf k then (some true, k + 1)
    else if pb k ≤ initial then (some false, k + 1)
    else transferRetryLoop tf pb initial (k + 1) fuel

/-- Trace of one check_balance_and_transfer / wait_for_funds_and_transfer
call. -/
structure CBTTrace where
  result : Option Bool
  pollReads : Nat
  pollSleeps : Nat
  transferAttempts : Nat
deriving DecidableEq, Repr

/-- check_balance_and_transfer (bot.py lines 128-155): poll the balance up
to `check_attempts` times (bounded-count mode); if no read exceeds
`initial`, return false with no transfer attempt; otherwise run the sweep
retry loop.  Post-failure balance re-reads continue the read stream after
the detecting read. -/
def check_balance_and_transfer (bal : Nat → ℚ) (tf : Nat → Bool) (initial : ℚ)
    (check_attempts fuel : Nat) : CBTTrace :=
  let p := pollLoop bal initial 0 check_attempts
  match p.found with
  | none => ⟨some false, p.reads, p.sleeps, 0⟩
  | some (k, _) =>
    let t := transferRetryLoop tf (fun j => bal (k + 1 + j)) initial 0 fuel
    ⟨t.1, p.reads, p.sleeps, t.2⟩

/-- wait_for_funds_and_transfer (bot.py lines 205-234): time-bounded mode,
polling once per time unit until `timeout` units elapse; on detection it
runs the same sweep retry loop, on timeout it returns false. -/
def wait_for_funds_and_transfer (bal : Nat → ℚ) (tf : Nat → Bool) (initial : ℚ)
    (timeout fuel : Nat) : CBTTrace :=
  let p := pollLoop bal initial 0 timeout
  match p.found with
  | none => ⟨some false, p.reads, p.sleeps, 0⟩
  | some (k, _) =>
    let t := transferRetryLoop tf (fun j => bal (k + 1 + j)) initial 0 fuel
    ⟨t.1, p.reads, p.sleeps, t.2⟩

/-- Trace of the RATE_LIMIT branch of run_bot. -/
structure RLTrace where
  pollerInvocations : Nat
  secondBaseline : Option ℚ
  secondResult : Option (Option Bool)
  reuse : Bool
  cycleAdvanced : Bool
deriving DecidableEq, Repr

/-- The RATE_LIMIT branch of run_bot (bot.py lines 296-310): run
check_balance_and_transfer once; only if it reports success, re-read the
balance as the new baseline (`rebased`) and run it a second time with
fresh oracle streams `bal2`/`tf2`; in every case clear reuse, bump the
cycle counter and break out of the inner loop. -/
def rateLimitedBranch (bal1 : Nat → ℚ) (tf1 : Nat → Bool) (bal2 : Nat → ℚ) (tf2 : Nat → Bool)
    (rebased initial : ℚ) (check_attempts fuel : Nat) : RLTrace :=
  let r1 := check_balance_and_transfer bal1 tf1 initial check_attempts fuel
  if r1.result = some true then
    let r2 := check_balance_and_transfer bal2 tf2 rebased check_attempts fuel
    ⟨2, some rebased, some r2.result, false, true⟩
  else
    ⟨1, none, none, false, true⟩

/-- What the inner faucet-request loop of run_bot does after one attempt:
either break out to the next cycle (with the given reuse flag) or retry
the same faucet request without advancing. -/
inductive InnerAction
  | advance (reuse : Bool)
  | retrySame
deriving DecidableEq, Repr

/-- The per-outcome action of the inner loop of run_bot (bot.py lines
265-333).  For `Success` the action depends on whether
wait_for_funds_and_transfer succeeded (`transferOk`); every other outcome
acts unconditionally as in its branch. -/
def dispatchOutcome (o : FaucetOutcome) (transferOk : Bool) : InnerAction :=
  match o with
  | .Success => if transferOk then .advance false else .retrySame
  | .MaxRetriesExceeded => .advance true
  | .TransactionReplaced => .advance true
  | .ReplacementUnderpriced => .advance true
  | .RateLimited => .advance false
  | .TemporarilyForbidden => .advance true
  | .AccessRestricted => .retrySame
  | .Timeout => .retrySame
  | .ConnectionReset => .retrySame
  | .UnknownFailure => .advance false

/-- Cycle-start account selection (bot.py lines 251-257): with reuse keep
the previous address, otherwise take the freshly generated one. -/
def nextCycleAccount (reuse : Bool) (current fresh : String) : String :=
  if reuse then current else fresh

/-- How one iteration of the outer `while True` of run_bot ends. -/
inductive CycleEvent
  | completed
  | interrupted
  | errored (msg : String)

/-- The orchestrator's reaction to a cycle ending. -/
inductive OuterAction
  | exitLoop
  | continueLoop (delayUnits : Nat)
deriving DecidableEq, Repr

/-- The exception handling at the outer-loop boundary of run_bot (bot.py
lines 247-343): KeyboardInterrupt breaks the loop; any other exception is
logged and the loop continues after `request_delay`; normal completion
continues immediately. -/
def outerStep (e : CycleEvent) : OuterAction :=
  match e with
  | .completed => .continueLoop 0
  | .interrupted => .exitLoop
  | .errored _ => .continueLoop request_delay

/-- Transport exceptions that request_faucet_funds can catch (bot.py lines
111-126). -/
inductive FaucetExc
  | readTimeout
  | connectionError (msg : String)
  | other (msg : String)

/-- The sentinel body request_faucet_funds returns for a caught transport
exception (bot.py lines 111-126): read timeout → "TIMEOUT";
connection error whose message mentions a peer reset → "CONNECTION_RESET";
connection error whose message mentions "Max retries exceeded with url" →
"MAX_RETRIES_EXCEEDED"; anything else → empty body. -/
def faucetExcBody : FaucetExc → String
  | .readTimeout => "TIMEOUT"
  | .connectionError msg =>
    if containsSub "Connection reset by peer" msg then "CONNECTION_RESET"
    else if containsSub "Max retries exceeded with url" msg then "MAX_RETRIES_EXCEEDED"
    else ""
  | .other _ => ""

/-! ## Theorems -/

/-- The body-classification chain of run_bot is the first-match lookup
over `markerTable`. -/
theorem classifyBody_eq_table (body : String) :
    classifyBody body = classifyByTable body := by
  cases h1 : containsSub "MAX_RETRIES_EXCEEDED" body
  case true => simp [classifyBody, classifyByTable, markerTable, List.find?, h1]
  case false =>
  cases h2 : containsSub "TRANSACTION_REPLACED" body
  case true => simp [classifyBody, classifyByTable, markerTable, List.find?, h1, h2]
  case false =>
  cases h3 : containsSub "REPLACEMENT_UNDERPRICED" body
  case true => simp [classifyBody, classifyByTable, markerTable, List.find?, h1, h2, h3]
  case false =>
  cases h4 : containsSub "RATE_LIMIT" body
  case true => simp [classifyBody, classifyByTable, markerTable, List.find?, h1, h2, h3, h4]
  case false =>
  cases h5 : containsSub "Temporarily forbidden due to suspicious requests" body
  case true =>
    simp [classifyBody, classifyByTable, markerTable, List.find?, h1, h2, h3, h4, h5]
  case false =>
  cases h6 : containsSub "ACCESS_RESTRICTED" body
  case true =>
    simp [classifyBody, classifyByTable, markerTable, List.find?, h1, h2, h3, h4, h5, h6]
  case false =>
  cases h7 : containsSub "TIMEOUT" body
  case true =>
    simp [classifyBody, classifyByTable, markerTable, List.find?, h1, h2, h3, h4, h5, h6, h7]
  case false =>
  cases h8 : containsSub "CONNECTION_RESET" body
  case true =>
    simp [classifyBody, classifyByTable, markerTable, List.find?, h1, h2, h3, h4, h5, h6, h7,
      h8]
  case false =>
    simp [classifyBody, classifyByTable, markerTable, List.find?, h1, h2, h3, h4, h5, h6, h7,
      h8]

/-- C1: with F = 21000 × gas price, a transfer_funds call that observes a
balance B > F builds exactly one transaction, of value B − F > 0; a call
that observes B ≤ F fails immediately, building, signing and broadcasting
nothing. -/
theorem claim_C1 (env : ChainEnv) (pk fa ta : String) (amt : ℚ) :
    (gas_limit * env.gas_price < env.balance_wei →
      ∃ tx : Tx, (transfer_funds env pk fa ta amt).built = [tx] ∧
        tx.value = (env.balance_wei : Int) - ((gas_limit * env.gas_price : Nat) : Int) ∧
        0 < tx.value) ∧
    (env.balance_wei ≤ gas_limit * env.gas_price →
      transfer_funds env pk fa ta amt = ⟨false, [], 0⟩) := by
  constructor
  · intro h
    have hpos : ¬ ((env.balance_wei : Int) - (gas_limit : Int) * (env.gas_price : Int) ≤ 0) := by
      have : ((gas_limit * env.gas_price : Nat) : Int) < (env.balance_wei : Int) := by
        exact_mod_cast h
      push_cast at this
      omega
    refine ⟨⟨env.nonce, ta, (env.balance_wei : Int) - (gas_limit : Int) * (env.gas_price : Int),
      gas_limit, env.gas_price⟩, ?_, ?_, ?_⟩
    · simp only [transfer_funds, if_neg hpos]
      cases env.sendOk <;> rcases env.receipt with _ | st <;> simp
      rcases st with _ | _ | st <;> simp
    · push_cast
      ring
    · show (0 : Int) < (env.balance_wei : Int) - (gas_limit : Int) * (env.gas_price : Int)
      omega
  · intro h
    have hle : (env.balance_wei : Int) - (gas_limit : Int) * (env.gas_price : Int) ≤ 0 := by
      have h2 : (env.balance_wei : Int) ≤ ((gas_limit * env.gas_price : Nat) : Int) := by
        exact_mod_cast h
      push_cast at h2
      omega
    simp only [transfer_funds]
    rw [if_pos hle]

/-- C1 witness: with gas price 1 and a fresh balance of 22000 wei the call
builds one transaction of value 1000 wei; with balance 20000 wei it fails,
building nothing. -/
theorem claim_C1_witness :
    (∃ tx : Tx, (transfer_funds ⟨0, 1, 22000, true, some 1⟩ "k" "a" "r" 0).built = [tx] ∧
      tx.value = 1000 ∧ 0 < tx.value) ∧
    transfer_funds ⟨0, 1, 20000, true, some 1⟩ "k" "a" "r" 0 = ⟨false, [], 0⟩ := by
  constructor
  · obtain ⟨tx, h1, h2, h3⟩ :=
      (claim_C1 ⟨0, 1, 22000, true, some 1⟩ "k" "a" "r" 0).1 (by decide)
    exact ⟨tx, h1, by simpa [gas_limit] using h2, h3⟩
  · exact (claim_C1 ⟨0, 1, 20000, true, some 1⟩ "k" "a" "r" 0).2 (by decide)

/-- C2 counterexample: a response body that literally contains
"Max retries exceeded with url" (and no sentinel marker) is classified
UnknownFailure, not MaxRetriesExceeded as the claim states. -/
theorem claim_C2_counterexample :
    classifyBody "Max retries exceeded with url" = .UnknownFailure ∧
    FaucetOutcome.UnknownFailure ≠ FaucetOutcome.MaxRetriesExceeded := by
  exact ⟨by decide, by decide⟩

/-- C2 amended: a failed attempt's body is inspected for the literal
sentinel markers of `markerTable` (MAX_RETRIES_EXCEEDED, not the
exception-message phrase); a body containing none of them is classified
UnknownFailure, a body containing exactly one marker is classified with
that marker's outcome, and a connection error whose message contains
"Max retries exceeded with url" is given the MAX_RETRIES_EXCEEDED sentinel
body and hence classified MaxRetriesExceeded. -/
theorem claim_C2_amended (body : String) :
    ((∀ p ∈ markerTable, containsSub p.1 body = false) →
      classifyBody body = .UnknownFailure) ∧
    (∀ p ∈ markerTable, containsSub p.1 body = true →
      (∀ q ∈ markerTable, q.2 ≠ p.2 → containsSub q.1 body = false) →
      classifyBody body = p.2) ∧
    (∀ msg, containsSub "Max retries exceeded with url" msg = true →
      containsSub "Connection reset by peer" msg = false →
      classifyBody (faucetExcBody (.connectionError msg)) = .MaxRetriesExceeded) := by
  refine ⟨?_, ?_, ?_⟩
  · intro h
    simp only [markerTable, List.forall_mem_cons] at h
    obtain ⟨h1, h2, h3, h4, h5, h6, h7, h8, -⟩ := h
    simp [classifyBody, h1, h2, h3, h4, h5, h6, h7, h8]
  · intro p hp
    simp only [markerTable, List.mem_cons, List.not_mem_nil, or_false] at hp
    rcases hp with rfl | rfl | rfl | rfl | rfl | rfl | rfl | rfl <;>
      · intro hc hothers
        simp only [markerTable, List.forall_mem_cons] at hothers
        simp at hothers
        simp [classifyBody, hc, hothers]
  · intro msg h1 h2
    simp only [faucetExcBody, h2, Bool.false_eq_true, if_false, h1, if_true]
    decide

/-- C2 amended witness: the body "RATE_LIMIT!" contains exactly the
RATE_LIMIT marker and is classified RateLimited. -/
theorem claim_C2_amended_witness :
    classifyBody "RATE_LIMIT!" = .RateLimited := by
  exact (claim_C2_amended "RATE_LIMIT!").2.1 ("RATE_LIMIT", .RateLimited)
    (by simp [markerTable]) (by decide) (by decide)

/-- C3: the four reuse outcomes make the inner loop advance with the reuse
flag set, so the next cycle keeps the same address; Success (with a
completed transfer), UnknownFailure and RateLimited advance with reuse
clear, so the next cycle takes the freshly generated account, whose
address differs from the current one whenever generation is fresh. -/
theorem claim_C3 (current fresh : String) (hne : fresh ≠ current) :
    (∀ t, dispatchOutcome .MaxRetriesExceeded t = .advance true ∧
      dispatchOutcome .TransactionReplaced t = .advance true ∧
      dispatchOutcome .ReplacementUnderpriced t = .advance true ∧
      dispatchOutcome .TemporarilyForbidden t = .advance true) ∧
    nextCycleAccount true current fresh = current ∧
    dispatchOutcome .Success true = .advance false ∧
    (∀ t, dispatchOutcome .UnknownFailure t = .advance false ∧
      dispatchOutcome .RateLimited t = .advance false) ∧
    nextCycleAccount false current fresh = fresh ∧
    nextCycleAccount false current fresh ≠ current := by
  exact ⟨fun t => ⟨rfl, rfl, rfl, rfl⟩, rfl, rfl, fun t => ⟨rfl, rfl⟩, rfl, hne⟩

/-- C3 witness: with current address "a" and fresh address "b", reuse
keeps "a" and a fresh advance switches to "b" ≠ "a". -/
theorem claim_C3_witness :
    nextCycleAccount true "a" "b" = "a" ∧ nextCycleAccount false "a" "b" = "b" ∧
    nextCycleAccount false "a" "b" ≠ "a" := by
  obtain ⟨-, h1, -, -, h2, h3⟩ := claim_C3 "a" "b" (by decide)
  exact ⟨h1, h2, h3⟩

/-- C7: an exception raised inside a cycle body is handled at the loop
boundary with a 1-unit delay and the loop continues; the only event that
exits the orchestrator loop is the operator interrupt. -/
theorem claim_C7 (msg : String) :
    outerStep (.errored msg) = .continueLoop 1 ∧
    outerStep .interrupted = .exitLoop ∧
    (∀ e : CycleEvent, outerStep e = .exitLoop ↔ e = .interrupted) := by
  refine ⟨rfl, rfl, ?_⟩
  intro e
  cases e <;> simp [outerStep, request_delay]

/-- C8: get_balance maps a failing RPC read to balance 0 with the error
logged, and a successful read of w wei to its ETH value with no error; it
is a total function, so no error ever propagates to the caller. -/
theorem claim_C8 (e : String) (w : Nat) :
    get_balance (.error e) = ⟨0, true⟩ ∧ get_balance (.ok w) = ⟨weiToEth w, false⟩ := by
  exact ⟨rfl, rfl⟩

/-- C9: transfer_funds never reads its `amount_eth` argument — two calls
that differ only in that argument have identical traces (built
transactions, broadcasts and result). -/
theorem claim_C9 (env : ChainEnv) (pk fa ta : String) (a1 a2 : ℚ) :
    transfer_funds env pk fa ta a1 = transfer_funds env pk fa ta a2 := by
  rfl

/-- If no read in the window exceeds the baseline, the poll loop performs
every remaining read, sleeps after each, and detects nothing. -/
theorem pollLoop_none (bal : Nat → ℚ) (initial : ℚ) :
    ∀ rem i, (∀ j, j < rem → bal (i + j) ≤ initial) →
      pollLoop bal initial i rem = ⟨none, rem, rem⟩ := by
  intro rem
  induction rem with
  | zero => intro i _; rfl
  | succ r ih =>
    intro i h
    have hb : bal i ≤ initial := by
      have := h 0 (by omega)
      simpa using this
    have hrec : pollLoop bal initial (i + 1) r = ⟨none, r, r⟩ := by
      apply ih
      intro j hj
      have hx := h (j + 1) (by omega)
      have he : i + (j + 1) = i + 1 + j := by omega
      rwa [he] at hx
    simp [pollLoop, not_lt.mpr hb, hrec]

/-- If the first read exceeding the baseline is read index k (0-based),
the poll loop stops there: k+1 reads, k sleeps, detection at absolute
index i + k. -/
theorem pollLoop_found (bal : Nat → ℚ) (initial : ℚ) :
    ∀ k i rem, k < rem → initial < bal (i + k) →
      (∀ j, j < k → bal (i + j) ≤ initial) →
      pollLoop bal initial i rem = ⟨some (i + k, bal (i + k)), k + 1, k⟩ := by
  intro k
  induction k with
  | zero =>
    intro i rem hrem hdet _
    obtain ⟨r, rfl⟩ : ∃ r, rem = r + 1 := ⟨rem - 1, by omega⟩
    simp only [Nat.add_zero] at hdet
    simp [pollLoop, hdet]
  | succ kk ih =>
    intro i rem hrem hdet h
    obtain ⟨r, rfl⟩ : ∃ r, rem = r + 1 := ⟨rem - 1, by omega⟩
    have hb : bal i ≤ initial := by
      have := h 0 (by omega)
      simpa using this
    have hdet2 : initial < bal (i + 1 + kk) := by
      have he : i + 1 + kk = i + (kk + 1) := by omega
      rwa [he]
    have hrec := ih (i + 1) r (by omega) hdet2 (fun j hj => by
      have hx := h (j + 1) (by omega)
      have he : i + (j + 1) = i + 1 + j := by omega
      rwa [he] at hx)
    have he2 : i + 1 + kk = i + (kk + 1) := by omega
    rw [he2] at hrec
    simp [pollLoop, not_lt.mpr hb, hrec]

/-- The attempt counter of the sweep retry loop never drops below its
starting index. -/
theorem transferRetryLoop_ge (tf : Nat → Bool) (pb : Nat → ℚ) (initial : ℚ) :
    ∀ fuel k, k ≤ (transferRetryLoop tf pb initial k fuel).2 := by
  intro fuel
  induction fuel with
  | zero => intro k; simp [transferRetryLoop]
  | succ f ih =>
    intro k
    simp only [transferRetryLoop]
    by_cases h1 : tf k = true
    · simp [h1]
    · simp only [Bool.not_eq_true] at h1
      simp only [h1, Bool.false_eq_true, if_false]
      by_cases h2 : pb k ≤ initial
      · simp [h2]
      · simp only [h2, if_false]
        exact le_trans (by omega) (ih (k + 1))

/-- While every attempt fails and every post-failure read still exceeds
the baseline, the sweep retry loop keeps going: d such rounds consume d
fuel and advance the attempt index by d. -/
theorem transferRetryLoop_skip (tf : Nat → Bool) (pb : Nat → ℚ) (initial : ℚ) :
    ∀ d s fuel, (∀ j, j < d → tf (s + j) = false ∧ initial < pb (s + j)) →
      transferRetryLoop tf pb initial s (d + fuel) =
        transferRetryLoop tf pb initial (s + d) fuel := by
  intro d
  induction d with
  | zero => intro s fuel _; simp
  | succ dd ih =>
    intro s fuel h
    have h0 := h 0 (by omega)
    simp only [Nat.add_zero] at h0
    have he : dd + 1 + fuel = (dd + fuel) + 1 := by omega
    rw [he]
    simp only [transferRetryLoop, h0.1, Bool.false_eq_true, if_false,
      if_neg (not_le.mpr h0.2)]
    have hrec := ih (s + 1) fuel (fun j hj => by
      have hx := h (j + 1) (by omega)
      have he2 : s + (j + 1) = s + 1 + j := by omega
      rwa [he2] at hx)
    have he3 : s + 1 + dd = s + (dd + 1) := by omega
    rw [he3] at hrec
    exact hrec

/-- With at least one unit of fuel, the sweep retry loop performs at
least one transfer attempt. -/
theorem transferRetryLoop_pos (tf : Nat → Bool) (pb : Nat → ℚ) (initial : ℚ) (f : Nat) :
    1 ≤ (transferRetryLoop tf pb initial 0 (f + 1)).2 := by
  simp only [transferRetryLoop]
  by_cases h1 : tf 0 = true
  · simp [h1]
  · simp only [Bool.not_eq_true] at h1
    simp only [h1, Bool.false_eq_true, if_false]
    by_cases h2 : pb 0 ≤ initial
    · simp [h2]
    · simp only [h2, if_false]
      exact transferRetryLoop_ge tf pb initial f 1

/-- C5: in bounded-count mode with limit N, if no read exceeds the
baseline the poller performs exactly N reads (one time unit apart) and
returns false with no transfer attempt; if read index k (0-based, k < N)
is the first to exceed the baseline, polling stops after k+1 reads and the
transfer phase runs at least one attempt. -/
theorem claim_C5 (bal : Nat → ℚ) (tf : Nat → Bool) (initial : ℚ) (N fuel k : Nat) :
    ((∀ i, i < N → bal i ≤ initial) →
      check_balance_and_transfer bal tf initial N fuel = ⟨some false, N, N, 0⟩) ∧
    (k < N → initial < bal k → (∀ i, i < k → bal i ≤ initial) → 1 ≤ fuel →
      (check_balance_and_transfer bal tf initial N fuel).pollReads = k + 1 ∧
      1 ≤ (check_balance_and_transfer bal tf initial N fuel).transferAttempts) := by
  constructor
  · intro h
    have hp := pollLoop_none bal initial N 0 (fun j hj => by simpa using h j hj)
    simp [check_balance_and_transfer, hp]
  · intro hk hdet hbefore hfuel
    have hp := pollLoop_found bal initial k 0 N hk (by simpa using hdet)
      (fun j hj => by simpa using hbefore j hj)
    simp only [Nat.zero_add] at hp
    obtain ⟨f, rfl⟩ : ∃ f, fuel = f + 1 := ⟨fuel - 1, by omega⟩
    constructor
    · simp [check_balance_and_transfer, hp]
    · simp only [check_balance_and_transfer, hp]
      exact transferRetryLoop_pos tf (fun j => bal (k + 1 + j)) initial f

/-- C5 witness: with balance constantly 0 and baseline 0 the poller does
all 10 reads and returns false with no transfer; with the balance jumping
to 5 at read index 2 it stops after 3 reads and attempts a transfer. -/
theorem claim_C5_witness :
    check_balance_and_transfer (fun _ => 0) (fun _ => false) 0 10 3 =
      ⟨some false, 10, 10, 0⟩ ∧
    (check_balance_and_transfer (fun n => if n = 2 then 5 else 0) (fun _ => true)
      0 10 3).pollReads = 3 ∧
    1 ≤ (check_balance_and_transfer (fun n => if n = 2 then 5 else 0) (fun _ => true)
      0 10 3).transferAttempts := by
  refine ⟨?_, ?_⟩
  · exact (claim_C5 (fun _ => 0) (fun _ => false) 0 10 3 0).1 (fun i _ => le_refl 0)
  · exact (claim_C5 (fun n => if n = 2 then 5 else 0) (fun _ => true) 0 10 3 2).2
      (by decide) (by decide) (fun i hi => by interval_cases i <;> decide) (by decide)

/-- C6: in both the bounded-count and the time-bounded sweep retry loops,
once a post-failure balance re-read is ≤ the recorded baseline the loop
stops immediately with failure: if detection happened at read k and the
first a retries fail with the balance still above baseline, and attempt a
fails with the following re-read ≤ baseline, the call returns false after
exactly a+1 transfer attempts, however much fuel remains. -/
theorem claim_C6 (bal : Nat → ℚ) (tf : Nat → Bool) (initial : ℚ) (N fuel k a : Nat)
    (hk : k < N) (hdet : initial < bal k) (hbefore : ∀ i, i < k → bal i ≤ initial)
    (hfail : ∀ j, j < a → tf j = false ∧ initial < bal (k + 1 + j))
    (hfa : tf a = false) (hba : bal (k + 1 + a) ≤ initial) (hfuel : a + 1 ≤ fuel) :
    check_balance_and_transfer bal tf initial N fuel = ⟨some false, k + 1, k, a + 1⟩ ∧
    wait_for_funds_and_transfer bal tf initial N fuel = ⟨some false, k + 1, k, a + 1⟩ := by
  have hp := pollLoop_found bal initial k 0 N hk (by simpa using hdet)
    (fun j hj => by simpa using hbefore j hj)
  simp only [Nat.zero_add] at hp
  have hloop : transferRetryLoop tf (fun j => bal (k + 1 + j)) initial 0 fuel =
      (some false, a + 1) := by
    obtain ⟨m, rfl⟩ : ∃ m, fuel = a + (m + 1) := ⟨fuel - a - 1, by omega⟩
    have hskip := transferRetryLoop_skip tf (fun j => bal (k + 1 + j)) initial a 0 (m + 1)
      (fun j hj => by simpa using hfail j hj)
    simp only [Nat.zero_add] at hskip
    rw [hskip]
    simp [transferRetryLoop, hfa, hba]
  constructor
  · simp [check_balance_and_transfer, hp, hloop]
  · simp [wait_for_funds_and_transfer, hp, hloop]

/-- C6 witness: detection on the first read (balance 1 over baseline 0),
the single transfer attempt fails, the re-read gives 0 ≤ baseline, and
both pollers stop with failure after exactly one attempt. -/
theorem claim_C6_witness :
    check_balance_and_transfer (fun n => if n = 0 then 1 else 0) (fun _ => false) 0 10 1 =
      ⟨some false, 1, 0, 1⟩ ∧
    wait_for_funds_and_transfer (fun n => if n = 0 then 1 else 0) (fun _ => false) 0 10 1 =
      ⟨some false, 1, 0, 1⟩ := by
  exact claim_C6 (fun n => if n = 0 then 1 else 0) (fun _ => false) 0 10 1 0 0
    (by decide) (by decide) (fun i hi => absurd hi (by omega))
    (fun j hj => absurd hj (by omega)) (by decide) (by decide) (by decide)

/-- C4 counterexample: when the first bounded-count pass detects no funds
(balance constantly 0 over baseline 0), the RATE_LIMIT branch invokes the
poller exactly once, not twice. -/
theorem claim_C4_counterexample :
    (rateLimitedBranch (fun _ => 0) (fun _ => false) (fun _ => 0) (fun _ => false)
      0 0 10 1).pollerInvocations = 1 ∧ (1 : Nat) ≠ 2 := by
  exact ⟨by decide, by decide⟩

/-- C4 amended: the RATE_LIMIT branch runs the bounded-count poller once;
only when that first pass reports a successful transfer does it run the
poller a second time, with initialBalance re-baselined to the balance read
after the first transfer; in every case it then advances to the next cycle
without reuse. -/
theorem claim_C4_amended (bal1 : Nat → ℚ) (tf1 : Nat → Bool) (bal2 : Nat → ℚ)
    (tf2 : Nat → Bool) (rebased initial : ℚ) (N fuel : Nat) :
    ((check_balance_and_transfer bal1 tf1 initial N fuel).result = some true →
      rateLimitedBranch bal1 tf1 bal2 tf2 rebased initial N fuel =
        ⟨2, some rebased, some (check_balance_and_transfer bal2 tf2 rebased N fuel).result,
          false, true⟩) ∧
    ((check_balance_and_transfer bal1 tf1 initial N fuel).result ≠ some true →
      rateLimitedBranch bal1 tf1 bal2 tf2 rebased initial N fuel =
        ⟨1, none, none, false, true⟩) ∧
    (rateLimitedBranch bal1 tf1 bal2 tf2 rebased initial N fuel).reuse = false ∧
    (rateLimitedBranch bal1 tf1 bal2 tf2 rebased initial N fuel).cycleAdvanced = true := by
  refine ⟨?_, ?_, ?_, ?_⟩
  · intro h
    simp [rateLimitedBranch, h]
  · intro h
    simp [rateLimitedBranch, h]
  · by_cases h : (check_balance_and_transfer bal1 tf1 initial N fuel).result = some true <;>
      simp [rateLimitedBranch, h]
  · by_cases h : (check_balance_and_transfer bal1 tf1 initial N fuel).result = some true <;>
      simp [rateLimitedBranch, h]

/-- C4 amended witness: first pass succeeds (funds on read 0, transfer
succeeds), so the poller runs twice with the second pass baselined at the
re-read balance 0, whose pass detects nothing; the branch still advances
without reuse. -/
theorem claim_C4_amended_witness :
    rateLimitedBranch (fun _ => 1) (fun _ => true) (fun _ => 0) (fun _ => false)
      0 0 10 1 = ⟨2, some 0, some (some false), false, true⟩ := by
  have h := (claim_C4_amended (fun _ => 1) (fun _ => true) (fun _ => 0) (fun _ => false)
    0 0 10 1).1 (by decide)
  exact h.trans (by decide)

/-- C10: the failed-body branch chain of run_bot is the first-match
lookup over the fixed precedence list `markerTable`, so exactly one branch
fires; in particular a body containing both RATE_LIMIT and
ACCESS_RESTRICTED is handled as RateLimited. -/
theorem claim_C10 :
    (∀ body, classifyBody body = classifyByTable body) ∧
    classifyBody "RATE_LIMIT and ACCESS_RESTRICTED" = .RateLimited := by
  exact ⟨classifyBody_eq_table, by decide⟩

end FaucetBot
